import Mathlib

/-!
Shallow embedding of the dual-ledger synchronization core of the
django-issuer-platform repository, together with theorems settling the
frozen claims about its specification.

The embedding follows the source files:
  - campaigns_module/models.py     (Campaign, is_successful, can_deploy_to_blockchain)
  - escrow/models.py               (FundEscrow, can_release_funds, can_refund)
  - escrow/signals.py              (handle_campaign_completion)
  - investments/models.py          (Investment)
  - issuers/models.py              (Company chain-mirror fields)
  - blockchain/web3_client.py      (send_transaction, parse_event_log)
  - blockchain/services.py         (event parsing for campaign deploy and NFT mint)
  - blockchain/tasks.py            (register_issuer_on_blockchain, mint_nft_certificate,
                                    record_investment_on_blockchain - blockchain module copy)
  - campaigns_module/tasks.py      (deploy_campaign_to_blockchain)
  - investments/tasks.py           (record_investment_on_blockchain - investments module copy)

Python Decimal fields are modelled as rationals (Decimal arithmetic on the
amounts involved is exact), datetimes as naturals, and the Celery task bodies
as pure functions taking the database rows they read plus the outcome of the
blockchain call they perform, returning the rows they write together with an
outcome describing whether the task returned, raised, or requested a retry.
-/

/-- Campaign lifecycle status, from campaigns_module/models.py STATUS_CHOICES. -/
inductive CampaignStatus where
  | draft
  | pending
  | approved
  | active
  | successful
  | failed
  | cancelled
deriving Repr, DecidableEq

/-- Investment status, from investments/models.py. -/
inductive InvStatus where
  | pending
  | confirmed
  | failed
  | refunded
deriving Repr, DecidableEq

/-- Escrow status, from escrow/models.py STATUS_CHOICES. -/
inductive EscrowStatus where
  | escrowed
  | released
  | refunded
deriving Repr, DecidableEq

/-- Campaign row: the fields of campaigns_module/models.py Campaign that the
reconciliation core reads or writes. -/
structure Campaign where
  status : CampaignStatus
  fundingGoal : ℚ
  currentFunding : ℚ
  successThreshold : ℚ
  duration : Nat
  startDate : Option Nat
  endDate : Option Nat
  smartContractAddress : Option String
  deploymentTxHash : Option String
  deployedOnBlockchain : Bool
  blockchainDeployedAt : Option Nat
  investorCount : Nat
  fundsReleased : Bool
deriving Repr, DecidableEq

namespace Campaign

/-- progress_percentage property (campaigns_module/models.py): percentage of the
funding goal reached, 0 when the goal is not positive. -/
def progress_percentage (c : Campaign) : ℚ :=
  if c.fundingGoal > 0 then c.currentFunding / c.fundingGoal * 100 else 0

/-- is_successful property (campaigns_module/models.py): progress has reached the
success threshold. -/
def is_successful (c : Campaign) : Bool :=
  c.progress_percentage ≥ c.successThreshold

/-- can_deploy_to_blockchain (campaigns_module/models.py): approved, not yet
deployed, and the company is chain-registered. -/
def can_deploy_to_blockchain (c : Campaign) (companyRegisteredOnBlockchain : Bool) : Bool :=
  c.status == .approved && !c.deployedOnBlockchain && companyRegisteredOnBlockchain

end Campaign

/-- FundEscrow row, from escrow/models.py.  The campaign it belongs to is passed
separately to its predicates (self.campaign in the source resolves to the
campaign row of the one-to-one field). -/
structure FundEscrow where
  status : EscrowStatus
  fundsReleased : Bool
  refundInitiated : Bool
  refundCompleted : Bool
deriving Repr, DecidableEq

namespace FundEscrow

/-- can_release_funds property (escrow/models.py lines 65-73). -/
def can_release_funds (e : FundEscrow) (c : Campaign) : Bool :=
  e.status == .escrowed &&
  !e.fundsReleased &&
  c.is_successful &&
  c.status == .active

/-- can_refund property (escrow/models.py lines 75-82). -/
def can_refund (e : FundEscrow) (c : Campaign) : Bool :=
  e.status == .escrowed &&
  !e.fundsReleased &&
  (c.status == .failed || c.status == .cancelled)

end FundEscrow

/-- Which escrow task the post-save signal enqueues. -/
inductive EscrowTaskKind where
  | releaseFunds
  | processRefunds
deriving Repr, DecidableEq

/-- handle_campaign_completion (escrow/signals.py lines 14-37): the post-save
receiver on Campaign.  Returns the task it enqueues, if any.  The campaign
argument is the instance just saved; the escrow argument is its one-to-one
escrow row (the signal returns early when the campaign has no escrow, which
corresponds to not calling this function). -/
def handle_campaign_completion (c : Campaign) (e : FundEscrow) : Option EscrowTaskKind :=
  if c.status == .successful && e.can_release_funds c then
    some .releaseFunds
  else if (c.status == .failed || c.status == .cancelled) && e.can_refund c then
    some .processRefunds
  else
    none

/-- Claim C5: for every FundEscrow in every reachable state, can_release_funds
and can_refund are never both true, and each of them being true implies the
escrow status is escrowed. -/
theorem can_release_can_refund_mutually_exclusive (e : FundEscrow) (c : Campaign) :
    ¬(e.can_release_funds c = true ∧ e.can_refund c = true) ∧
    (e.can_release_funds c = true → e.status = .escrowed) ∧
    (e.can_refund c = true → e.status = .escrowed) := by
  refine ⟨?_, ?_, ?_⟩
  · rintro ⟨h1, h2⟩
    simp only [FundEscrow.can_release_funds, FundEscrow.can_refund, Bool.and_eq_true,
      Bool.or_eq_true, beq_iff_eq] at h1 h2
    rcases h2.2 with h | h
    · rw [h1.2] at h; cases h
    · rw [h1.2] at h; cases h
  · intro h
    simp only [FundEscrow.can_release_funds, Bool.and_eq_true, beq_iff_eq] at h
    exact h.1.1.1
  · intro h
    simp only [FundEscrow.can_refund, Bool.and_eq_true, beq_iff_eq] at h
    exact h.1.1

/-- Witness for C5 at a concrete escrow and campaign: the release predicate holds
there, and the theorem instance yields that the status is escrowed. -/
theorem can_release_can_refund_mutually_exclusive_witness :
    ¬((FundEscrow.mk .escrowed false false false).can_release_funds
        (Campaign.mk .active 100000 78000 75 30 none none (some "0xc") (some "0xh")
          true (some 1) 2 false) = true ∧
      (FundEscrow.mk .escrowed false false false).can_refund
        (Campaign.mk .active 100000 78000 75 30 none none (some "0xc") (some "0xh")
          true (some 1) 2 false) = true) ∧
    (FundEscrow.mk .escrowed false false false).status = .escrowed :=
  ⟨(can_release_can_refund_mutually_exclusive
      (FundEscrow.mk .escrowed false false false)
      (Campaign.mk .active 100000 78000 75 30 none none (some "0xc") (some "0xh")
        true (some 1) 2 false)).1,
   (can_release_can_refund_mutually_exclusive
      (FundEscrow.mk .escrowed false false false)
      (Campaign.mk .active 100000 78000 75 30 none none (some "0xc") (some "0xh")
        true (some 1) 2 false)).2.1
     (by simp [FundEscrow.can_release_funds, Campaign.is_successful,
           Campaign.progress_percentage]
         norm_num)⟩

/-- Claim C10: the release branch of the escrow post-save trigger requires the
campaign status to be successful while can_release_funds requires it to be
active, so the trigger never enqueues the fund-release task. -/
theorem handle_campaign_completion_never_enqueues_release
    (c : Campaign) (e : FundEscrow) :
    handle_campaign_completion c e ≠ some .releaseFunds := by
  unfold handle_campaign_completion
  split
  · rename_i h
    simp only [Bool.and_eq_true, beq_iff_eq] at h
    have hs : c.status = .successful := h.1
    have hr := h.2
    simp only [FundEscrow.can_release_funds, Bool.and_eq_true, beq_iff_eq] at hr
    rw [hs] at hr
    exact absurd hr.2 (by decide)
  · split
    · intro h; cases h
    · intro h; cases h

/-! ## Ledger Client: blockchain/web3_client.py -/

/-- Raw event log of a receipt; its payload is opaque to the client, which only
hands it to a decoder. -/
structure RawLog where
  idx : Nat
deriving Repr, DecidableEq

/-- Receipt as returned by the node for a mined transaction
(wait_for_transaction_receipt result). -/
structure Receipt where
  blockNumber : Nat
  gasUsed : Nat
  status : Nat
  contractAddress : Option String
  logs : List RawLog
deriving Repr, DecidableEq

/-- Error taxonomy of blockchain/web3_client.py: BlockchainTimeout and
TransactionFailed subclass BlockchainError; ValueError is raised for missing
configuration or a missing confirming event. -/
inductive BcError where
  | blockchainTimeout (txHash : String)
  | transactionFailed (txHash : String)
  | valueError (msg : String)
  | connectionError (msg : String)
deriving Repr, DecidableEq

/-- Result dict built by send_transaction on success
(web3_client.py lines 199-206). -/
structure TxResult where
  txHash : String
  blockNumber : Nat
  gasUsed : Nat
  status : Nat
  contractAddress : Option String
  logs : List RawLog
deriving Repr, DecidableEq

/-- send_transaction (web3_client.py lines 128-206), after the transaction has
been broadcast with hash txHash.  The receipt wait is the only fallible step
modelled: waitResult is none when no receipt arrived within the 120-second
timeout (the except TimeoutError branch), some r when receipt r was observed.
hasAccount mirrors the `if not self.account` guard. -/
def send_transaction (hasAccount : Bool) (txHash : String)
    (waitResult : Option Receipt) : Except BcError TxResult :=
  if !hasAccount then
    .error (.valueError "Private key not configured")
  else
    match waitResult with
    | none => .error (.blockchainTimeout txHash)
    | some receipt =>
      if receipt.status = 0 then
        .error (.transactionFailed txHash)
      else
        .ok { txHash := txHash
              blockNumber := receipt.blockNumber
              gasUsed := receipt.gasUsed
              status := receipt.status
              contractAddress := receipt.contractAddress
              logs := receipt.logs }

/-- Receipt wait timeout in seconds (web3_client.py line 186). -/
def receipt_wait_timeout : Nat := 120

/-- Claim C7: send_transaction fails with BlockchainTimeout when no receipt is
observed within the 120-second timeout, fails with TransactionFailed when the
receipt status bit is 0, and otherwise returns the receipt data: transaction
hash, block number, gas used, status, and raw logs. -/
theorem send_transaction_outcomes (h : String) (w : Option Receipt) :
    receipt_wait_timeout = 120 ∧
    (w = none → send_transaction true h w = .error (.blockchainTimeout h)) ∧
    (∀ r, w = some r → r.status = 0 →
      send_transaction true h w = .error (.transactionFailed h)) ∧
    (∀ r, w = some r → r.status ≠ 0 →
      send_transaction true h w =
        .ok ⟨h, r.blockNumber, r.gasUsed, r.status, r.contractAddress, r.logs⟩) := by
  refine ⟨rfl, ?_, ?_, ?_⟩
  · rintro rfl; rfl
  · rintro r rfl hs
    simp [send_transaction, hs]
  · rintro r rfl hs
    simp [send_transaction, hs]

/-- Witness for C7 at a concrete receipt with status 1. -/
theorem send_transaction_outcomes_witness :
    send_transaction true "0xabc" (some ⟨7, 21000, 1, none, []⟩) =
      .ok ⟨"0xabc", 7, 21000, 1, none, []⟩ :=
  (send_transaction_outcomes "0xabc" (some ⟨7, 21000, 1, none, []⟩)).2.2.2
    ⟨7, 21000, 1, none, []⟩ rfl (by decide)

/-! ## Nonce acquisition under concurrency (C6)

send_transaction builds each transaction with
`nonce := w3.eth.get_transaction_count(from_address)` (web3_client.py line 170)
with no lock or other serialization around the read-then-broadcast pair.  Two
concurrent send_transaction calls from the single deployer account are modelled
as two interleaved two-step programs over the node's transaction count: step
one reads the count into the local nonce field (line 170), step two broadcasts
the signed transaction, which the node accepts, raising the count. -/

/-- Program counter of one in-flight send_transaction call: before the nonce
read, after the nonce read, or after broadcasting with the chosen nonce. -/
inductive SubmitPhase where
  | start
  | haveNonce (n : Nat)
  | sent (n : Nat)
deriving Repr, DecidableEq

/-- One step of a single send_transaction call against the node's transaction
count: the nonce read takes the current count; the broadcast consumes the
locally held nonce and bumps the node's count. -/
def submit_step : Nat → SubmitPhase → Nat × SubmitPhase
  | cnt, .start => (cnt, .haveNonce cnt)
  | cnt, .haveNonce n => (cnt + 1, .sent n)
  | cnt, .sent n => (cnt, .sent n)

/-- State of two concurrent send_transaction calls from the same sender. -/
structure TwoSubmitters where
  nodeCount : Nat
  taskA : SubmitPhase
  taskB : SubmitPhase
deriving Repr, DecidableEq

/-- Run a schedule (false steps call A, true steps call B) over the
two-submitter state. -/
def run_schedule : List Bool → TwoSubmitters → TwoSubmitters
  | [], s => s
  | false :: rest, s =>
    let (c, p) := submit_step s.nodeCount s.taskA
    run_schedule rest { s with nodeCount := c, taskA := p }
  | true :: rest, s =>
    let (c, p) := submit_step s.nodeCount s.taskB
    run_schedule rest { s with nodeCount := c, taskB := p }

/-- Claim C6 (code bug): nonce acquisition is not serialized.  Under the
interleaving where both concurrent calls read the transaction count before
either broadcasts, both transactions are sent with the same nonce, so they
collide rather than using distinct sequential nonces. -/
theorem concurrent_submit_nonce_collision :
    run_schedule [false, true, false, true] ⟨5, .start, .start⟩ =
      ⟨7, .sent 5, .sent 5⟩ ∧
    (run_schedule [false, true, false, true] ⟨5, .start, .start⟩).taskA =
      (run_schedule [false, true, false, true] ⟨5, .start, .start⟩).taskB := by
  exact ⟨rfl, rfl⟩

/-! ## Event-log decoding (C8): blockchain/services.py and web3_client.py -/

/-- parse_event_log (web3_client.py lines 264-282): processing one raw log with
the contract event decoder; any decode exception is caught and None returned.
The decoder argument stands for `contract.events.<EventName>().process_log`,
which either produces the decoded payload or raises. -/
def parse_event_log (decoder : RawLog → Except String String) (log : RawLog) :
    Option String :=
  match decoder log with
  | .ok v => some v
  | .error _ => none

/-- parse_campaign_created_event (services.py lines 180-203,
CampaignBlockchainService): scan the receipt logs in order; a per-log decode
exception is swallowed and the scan continues; the first successful decode
returns the campaign address; if no log matches, ValueError is raised. -/
def parse_campaign_created_event (decoder : RawLog → Except String String) :
    List RawLog → Except BcError String
  | [] => .error (.valueError "CampaignCreated event not found in receipt")
  | log :: rest =>
    match decoder log with
    | .ok addr => .ok addr
    | .error _ => parse_campaign_created_event decoder rest

/-- parse_certificate_issued_event (services.py lines 399-402,
NFTCertificateService): a placeholder that ignores the receipt and returns
token id "1" unconditionally. -/
def parse_certificate_issued_event (_receiptLogs : List RawLog) : String := "1"

/-- mint_certificate (services.py lines 345-397) result assembly: on a
successful transaction the token id is taken from
parse_certificate_issued_event over the receipt logs. -/
def mint_certificate_result (sendResult : Except BcError TxResult) :
    Except BcError (String × String) :=
  match sendResult with
  | .error e => .error e
  | .ok r => .ok (parse_certificate_issued_event r.logs, r.txHash)

/-- Counterexample to claim C8: for the NFT-mint family the scan-all-logs /
hard-failure contract does not hold.  On a successful receipt with no logs at
all (so no matching log exists), mint_certificate_result silently succeeds
with the placeholder token id "1" instead of failing with an event-not-found
error. -/
theorem nft_mint_no_event_silent_success :
    mint_certificate_result (.ok ⟨"0xmint", 3, 90000, 1, none, []⟩) =
      .ok ("1", "0xmint") := rfl

/-- Claim C8 as amended: for campaign deployment, a per-log decode failure is
swallowed (the scan continues over the remaining logs), the first matching log
yields its decoded value, and a full scan with no matching log is a hard
ValueError; likewise parse_event_log maps a decode failure of one log to None
rather than an error.  The NFT-mint certificate parser, however, is a
placeholder that never scans the logs and always returns token id "1". -/
theorem event_scan_contract (decoder : RawLog → Except String String) :
    (parse_campaign_created_event decoder [] =
      .error (.valueError "CampaignCreated event not found in receipt")) ∧
    (∀ log rest e, decoder log = .error e →
      parse_campaign_created_event decoder (log :: rest) =
        parse_campaign_created_event decoder rest) ∧
    (∀ log rest addr, decoder log = .ok addr →
      parse_campaign_created_event decoder (log :: rest) = .ok addr) ∧
    (∀ log e, decoder log = .error e → parse_event_log decoder log = none) ∧
    (∀ log v, decoder log = .ok v → parse_event_log decoder log = some v) ∧
    (∀ logs, parse_certificate_issued_event logs = "1") := by
  refine ⟨rfl, ?_, ?_, ?_, ?_, fun _ => rfl⟩
  · intro log rest e hd
    simp [parse_campaign_created_event, hd]
  · intro log rest addr hd
    simp [parse_campaign_created_event, hd]
  · intro log e hd
    simp [parse_event_log, hd]
  · intro log v hd
    simp [parse_event_log, hd]

/-- Witness for the amended C8 at a concrete decoder that fails on log 0 and
decodes log 1. -/
theorem event_scan_contract_witness :
    parse_campaign_created_event
      (fun l => if l.idx = 1 then .ok "0xcamp" else .error "MismatchedABI")
      [⟨0⟩, ⟨1⟩] = .ok "0xcamp" := by
  have h := event_scan_contract
    (fun l => if l.idx = 1 then .ok "0xcamp" else .error "MismatchedABI")
  rw [h.2.1 ⟨0⟩ [⟨1⟩] "MismatchedABI" rfl]
  exact h.2.2.1 ⟨1⟩ [] "0xcamp" rfl

/-! ## Mirrored rows: issuers/models.py Company and investments/models.py Investment -/

/-- Human-readable message carried by a raised blockchain error, used when a
task turns the exception into a retry request. -/
def BcError.message : BcError → String
  | .blockchainTimeout h => "Transaction timeout: " ++ h
  | .transactionFailed h => "Transaction failed: " ++ h
  | .valueError m => m
  | .connectionError m => m

/-- Company row (issuers/models.py): the chain-mirror fields the issuer task
reads and writes; walletAddress stands for company.user.wallet_address. -/
structure Company where
  walletAddress : Option String
  vcHash : Option String
  ipfsDocumentHash : Option String
  blockchainAddress : Option String
  registeredOnBlockchain : Bool
  blockchainTxHash : Option String
  blockchainRegisteredAt : Option Nat
deriving Repr, DecidableEq

/-- Investment row (investments/models.py): the fields the record and mint
tasks read and write; userWalletAddress stands for investment.user.wallet_address. -/
structure Investment where
  userId : Nat
  userWalletAddress : Option String
  amount : ℚ
  status : InvStatus
  blockchainTxHash : Option String
  blockchainRecordedAt : Option Nat
  nftMinted : Bool
deriving Repr, DecidableEq

/-- NFTShareCertificate row created by the mint task
(blockchain/tasks.py lines 207-217). -/
structure NFTShareCertificate where
  tokenId : String
  ownerAddress : Option String
  shares : Int
  mintingTxHash : String
  mintedAt : Nat
deriving Repr, DecidableEq

/-- How a Celery task body ends: a normal return, an exception re-raised to the
queue without a retry request, or a self.retry call with its countdown. -/
inductive TaskOutcome (α : Type) where
  | ok (val : α)
  | raised (msg : String)
  | retryRequested (msg : String) (countdown : Nat)
deriving Repr, DecidableEq

/-- max_retries argument of every @shared_task decorator in the task files. -/
def shared_task_max_retries : Nat := 3

/-- countdown argument of every self.retry call in the task files. -/
def retry_countdown : Nat := 60

/-! ## blockchain/tasks.py -/

namespace BcTasks

/-- Rows and outcome produced by one run of register_issuer_on_blockchain. -/
structure RegisterRun where
  company : Option Company
  chainSubmits : Nat
  outcome : TaskOutcome TxResult
deriving Repr, DecidableEq

/-- register_issuer_on_blockchain (blockchain/tasks.py lines 13-62).  The chain
argument is the outcome of IssuerBlockchainService.register_issuer, performed
only when control reaches the service call; chainSubmits counts how many times
it was invoked.  Company.DoesNotExist has a dedicated except branch that
re-raises; every other exception reaches the generic branch that calls
self.retry with countdown 60. -/
def register_issuer_on_blockchain (company : Option Company)
    (chain : Except BcError TxResult) (now : Nat) : RegisterRun :=
  match company with
  | none => ⟨none, 0, .raised "Company not found"⟩
  | some c =>
    match c.walletAddress with
    | none => ⟨some c, 0, .retryRequested "Company has no wallet address" retry_countdown⟩
    | some w =>
      match chain with
      | .error e => ⟨some c, 1, .retryRequested e.message retry_countdown⟩
      | .ok r =>
        ⟨some { c with blockchainAddress := some w
                       registeredOnBlockchain := true
                       blockchainTxHash := some r.txHash
                       blockchainRegisteredAt := some now },
         1, .ok r⟩

/-- Return value of the blockchain-module record_investment_on_blockchain:
either the early idempotence-check dict or the service result. -/
inductive BcRecordRet where
  | alreadyRecorded
  | recorded (r : TxResult)
deriving Repr, DecidableEq

/-- Rows and outcome produced by one run of the blockchain-module
record_investment_on_blockchain. -/
structure BcRecordRun where
  investment : Option Investment
  campaign : Campaign
  chainSubmits : Nat
  outcome : TaskOutcome BcRecordRet
deriving Repr, DecidableEq

/-- record_investment_on_blockchain (blockchain/tasks.py lines 122-169).  The
write-back updates only blockchain_tx_hash and blockchain_recorded_at of the
investment; the campaign row is never touched by this task. -/
def record_investment_on_blockchain (investment : Option Investment)
    (campaign : Campaign) (chain : Except BcError TxResult) (now : Nat) : BcRecordRun :=
  match investment with
  | none => ⟨none, campaign, 0, .raised "Investment not found"⟩
  | some inv =>
    match inv.blockchainTxHash with
    | some _ => ⟨some inv, campaign, 0, .ok .alreadyRecorded⟩
    | none =>
      match chain with
      | .error e => ⟨some inv, campaign, 1, .retryRequested e.message retry_countdown⟩
      | .ok r =>
        ⟨some { inv with blockchainTxHash := some r.txHash
                         blockchainRecordedAt := some now },
         campaign, 1, .ok (.recorded r)⟩

/-- Return dict of mint_nft_certificate: the early check returns
success False / Already minted; the success path returns the service result
including the parsed token id. -/
structure MintRet where
  success : Bool
  message : Option String
  tokenId : Option String
deriving Repr, DecidableEq

/-- Rows and outcome produced by one run of mint_nft_certificate. -/
structure MintRun where
  investment : Option Investment
  createdCertificate : Option NFTShareCertificate
  chainSubmits : Nat
  outcome : TaskOutcome MintRet
deriving Repr, DecidableEq

/-- mint_nft_certificate (blockchain/tasks.py lines 172-227).  hasCertificate
mirrors hasattr(investment, 'nft_certificate'); the chain argument is the
outcome of NFTCertificateService.mint_certificate, a token id and tx hash pair
(mint_certificate_result); shares computes int(amount / 1000). -/
def mint_nft_certificate (investment : Option Investment) (hasCertificate : Bool)
    (chain : Except BcError (String × String)) (now : Nat) : MintRun :=
  match investment with
  | none => ⟨none, none, 0, .raised "Investment not found"⟩
  | some inv =>
    if hasCertificate then
      ⟨some inv, none, 0, .ok ⟨false, some "Already minted", none⟩⟩
    else
      match chain with
      | .error e => ⟨some inv, none, 1, .retryRequested e.message retry_countdown⟩
      | .ok (tokenId, txHash) =>
        ⟨some inv,
         some ⟨tokenId, inv.userWalletAddress, (inv.amount / 1000).floor, txHash, now⟩,
         1, .ok ⟨true, none, some tokenId⟩⟩

end BcTasks

/-! ## campaigns_module/tasks.py -/

namespace CampTasks

/-- Service result of CampaignBlockchainService.deploy_campaign. -/
structure DeployResult where
  campaignAddress : String
  txHash : String
deriving Repr, DecidableEq

/-- Return value of deploy_campaign_to_blockchain: the idempotence check does a
bare Python return (None); the success path returns the summary dict. -/
inductive DeployRet where
  | noneReturn
  | deployed (contractAddress : String) (txHash : String)
deriving Repr, DecidableEq

/-- Rows and outcome produced by one run of deploy_campaign_to_blockchain. -/
structure DeployRun where
  campaign : Option Campaign
  chainSubmits : Nat
  outcome : TaskOutcome DeployRet
deriving Repr, DecidableEq

/-- deploy_campaign_to_blockchain (campaigns_module/tasks.py lines 13-75).  The
entire body sits in one try whose generic except calls self.retry, so even
Campaign.DoesNotExist is retried here.  The write-back sets the contract
address, tx hash, deployed flag, deployment time, status active and
start_date; it does not touch end_date. -/
def deploy_campaign_to_blockchain (campaign : Option Campaign)
    (chain : Except BcError DeployResult) (now : Nat) : DeployRun :=
  match campaign with
  | none => ⟨none, 0, .retryRequested "Campaign not found" retry_countdown⟩
  | some c =>
    if c.deployedOnBlockchain then
      ⟨some c, 0, .ok .noneReturn⟩
    else
      match chain with
      | .error e => ⟨some c, 1, .retryRequested e.message retry_countdown⟩
      | .ok r =>
        ⟨some { c with smartContractAddress := some r.campaignAddress
                       deploymentTxHash := some r.txHash
                       deployedOnBlockchain := true
                       blockchainDeployedAt := some now
                       status := .active
                       startDate := some now },
         1, .ok (.deployed r.campaignAddress r.txHash)⟩

end CampTasks

/-- sync_campaign_to_blockchain (campaigns_module/signals.py lines 14-30): the
post-save receiver enqueues the deploy task exactly when
can_deploy_to_blockchain holds. -/
def sync_campaign_to_blockchain (c : Campaign) (companyRegistered : Bool) : Bool :=
  c.can_deploy_to_blockchain companyRegistered

/-! ## investments/tasks.py -/

namespace InvTasks

/-- Return dict of the investments-module record_investment_on_blockchain. -/
structure InvRecordRet where
  success : Bool
  alreadyRecorded : Bool
  txHash : Option String
deriving Repr, DecidableEq

/-- Rows and outcome produced by one run of the investments-module
record_investment_on_blockchain; mintEnqueued records whether the follow-on
mint_nft_certificate.delay call was made. -/
structure InvRecordRun where
  investment : Option Investment
  campaign : Campaign
  chainSubmits : Nat
  mintEnqueued : Bool
  outcome : TaskOutcome InvRecordRet
deriving Repr, DecidableEq

/-- record_investment_on_blockchain (investments/tasks.py lines 13-115).  The
whole body, including the chain call and every save, runs inside one
transaction.atomic block, so a failed attempt commits nothing; the others
argument is the list of the campaign's other investment rows consulted by the
previous-confirmed-count query (which excludes the current investment by id).
Everything, including Investment.DoesNotExist and the campaign-not-deployed
ValueError, reaches the generic except that calls self.retry. -/
def record_investment_on_blockchain (investment : Option Investment)
    (campaign : Campaign) (others : List Investment)
    (chain : Except BcError TxResult) (now : Nat) : InvRecordRun :=
  match investment with
  | none =>
    ⟨none, campaign, 0, false, .retryRequested "Investment not found" retry_countdown⟩
  | some inv =>
    match inv.blockchainTxHash with
    | some h => ⟨some inv, campaign, 0, false, .ok ⟨true, true, some h⟩⟩
    | none =>
      match campaign.smartContractAddress with
      | none =>
        ⟨some inv, campaign, 0, false,
         .retryRequested "Campaign not deployed to blockchain" retry_countdown⟩
      | some _ =>
        match chain with
        | .error e =>
          ⟨some inv, campaign, 1, false, .retryRequested e.message retry_countdown⟩
        | .ok r =>
          let inv' := { inv with blockchainTxHash := some r.txHash
                                 blockchainRecordedAt := some now }
          let previousConfirmedCount :=
            (others.filter (fun j =>
              j.userId == inv.userId && j.status == InvStatus.confirmed &&
              j.blockchainTxHash.isSome)).length
          let campaign' := { campaign with
              currentFunding := campaign.currentFunding + inv.amount
              investorCount :=
                campaign.investorCount + (if previousConfirmedCount = 0 then 1 else 0) }
          ⟨some inv', campaign', 1,
           campaign'.is_successful && !inv.nftMinted,
           .ok ⟨true, false, some r.txHash⟩⟩

end InvTasks

/-! ## Claims about the Mirror Task family -/

/-- Counterexample to claim C1: the issuer-registration Mirror Task has no
idempotence check.  Invoked again on a company whose chain-mirror fields are
already set (registered flag true, tx hash recorded), it performs the chain
transaction again (chainSubmits is 1, not 0) and overwrites the write-back
fields (the stored tx hash changes from 0xold to 0xnew). -/
theorem register_issuer_not_idempotent :
    (BcTasks.register_issuer_on_blockchain
      (some ⟨some "0xw", some "vc", some "ipfs", some "0xw", true, some "0xold", some 10⟩)
      (.ok ⟨"0xnew", 1, 2, 1, none, []⟩) 99).chainSubmits = 1 ∧
    (BcTasks.register_issuer_on_blockchain
      (some ⟨some "0xw", some "vc", some "ipfs", some "0xw", true, some "0xold", some 10⟩)
      (.ok ⟨"0xnew", 1, 2, 1, none, []⟩) 99).company ≠
      some ⟨some "0xw", some "vc", some "ipfs", some "0xw", true, some "0xold", some 10⟩ := by
  exact ⟨rfl, by decide⟩

/-- Claim C1 as amended: every modelled Mirror Task except issuer registration
guards on its chain-mirror field and, when it is already set, performs no
chain transaction and no write-back and returns normally (no exception, no
retry); issuer registration has no such guard and resubmits. -/
theorem mirror_tasks_idempotent_except_issuer :
    (∀ (c : Campaign) chain now, c.deployedOnBlockchain = true →
      CampTasks.deploy_campaign_to_blockchain (some c) chain now =
        ⟨some c, 0, .ok .noneReturn⟩) ∧
    (∀ inv camp others chain now h, inv.blockchainTxHash = some h →
      InvTasks.record_investment_on_blockchain (some inv) camp others chain now =
        ⟨some inv, camp, 0, false, .ok ⟨true, true, some h⟩⟩) ∧
    (∀ inv camp chain now h, inv.blockchainTxHash = some h →
      BcTasks.record_investment_on_blockchain (some inv) camp chain now =
        ⟨some inv, camp, 0, .ok .alreadyRecorded⟩) ∧
    (∀ inv chain now,
      BcTasks.mint_nft_certificate (some inv) true chain now =
        ⟨some inv, none, 0, .ok ⟨false, some "Already minted", none⟩⟩) := by
  refine ⟨?_, ?_, ?_, ?_⟩
  · intro c chain now h
    simp [CampTasks.deploy_campaign_to_blockchain, h]
  · intro inv camp others chain now h hh
    simp [InvTasks.record_investment_on_blockchain, hh]
  · intro inv camp chain now h hh
    simp [BcTasks.record_investment_on_blockchain, hh]
  · intro inv chain now
    simp [BcTasks.mint_nft_certificate]

/-- Witness for the amended C1: a concrete already-deployed campaign is left
untouched with no chain submission and a normal return. -/
theorem mirror_tasks_idempotent_except_issuer_witness :
    CampTasks.deploy_campaign_to_blockchain
      (some ⟨.active, 100000, 0, 75, 30, some 5, none, some "0xc", some "0xd",
        true, some 5, 0, false⟩)
      (.ok ⟨"0xother", "0xtx2"⟩) 42 =
      ⟨some ⟨.active, 100000, 0, 75, 30, some 5, none, some "0xc", some "0xd",
        true, some 5, 0, false⟩, 0, .ok .noneReturn⟩ :=
  mirror_tasks_idempotent_except_issuer.1
    ⟨.active, 100000, 0, 75, 30, some 5, none, some "0xc", some "0xd",
      true, some 5, 0, false⟩
    (.ok ⟨"0xother", "0xtx2"⟩) 42 rfl

/-- Counterexample to claim C2: a precondition violation is retried, not raised
immediately.  A company with no wallet address raises ValueError inside the
try block; the generic except branch turns it into a retry request with the
60-second countdown. -/
theorem precondition_violation_is_retried :
    (BcTasks.register_issuer_on_blockchain
      (some ⟨none, none, none, none, false, none, none⟩)
      (.error (.connectionError "unreachable")) 0).outcome =
      .retryRequested "Company has no wallet address" 60 := rfl

/-- Claim C2 as amended: every task declares max_retries 3 and retries with a
fixed 60-second countdown; in the blockchain-module tasks only
entity-not-found raises immediately without a retry request, while every other
failure - transient chain errors but also the permanent precondition
violations (missing wallet address, campaign not deployed) - is retried; the
investments-module task retries even entity-not-found. -/
theorem retry_semantics_catch_all :
    shared_task_max_retries = 3 ∧
    retry_countdown = 60 ∧
    (∀ chain now, (BcTasks.register_issuer_on_blockchain none chain now).outcome =
      .raised "Company not found") ∧
    (∀ c chain now, c.walletAddress = none →
      (BcTasks.register_issuer_on_blockchain (some c) chain now).outcome =
        .retryRequested "Company has no wallet address" 60) ∧
    (∀ c w e now, c.walletAddress = some w →
      (BcTasks.register_issuer_on_blockchain (some c) (.error e) now).outcome =
        .retryRequested e.message 60) ∧
    (∀ camp others chain now,
      (InvTasks.record_investment_on_blockchain none camp others chain now).outcome =
        .retryRequested "Investment not found" 60) ∧
    (∀ inv camp others chain now, inv.blockchainTxHash = none →
      camp.smartContractAddress = none →
      (InvTasks.record_investment_on_blockchain (some inv) camp others chain now).outcome =
        .retryRequested "Campaign not deployed to blockchain" 60) := by
  refine ⟨rfl, rfl, fun chain now => rfl, ?_, ?_, fun camp others chain now => rfl, ?_⟩
  · intro c chain now h
    simp [BcTasks.register_issuer_on_blockchain, h, retry_countdown]
  · intro c w e now h
    simp [BcTasks.register_issuer_on_blockchain, h, retry_countdown]
  · intro inv camp others chain now h1 h2
    simp [InvTasks.record_investment_on_blockchain, h1, h2, retry_countdown]

/-- Witness for the amended C2: the no-wallet precondition violation on a
concrete company is answered with a 60-second retry request. -/
theorem retry_semantics_catch_all_witness :
    (BcTasks.register_issuer_on_blockchain
      (some ⟨none, some "vc", none, none, false, none, none⟩)
      (.ok ⟨"0xh", 1, 2, 1, none, []⟩) 7).outcome =
      .retryRequested "Company has no wallet address" 60 :=
  retry_semantics_catch_all.2.2.2.1
    ⟨none, some "vc", none, none, false, none, none⟩
    (.ok ⟨"0xh", 1, 2, 1, none, []⟩) 7 rfl

/-- Counterexample to claim C3: the blockchain-module record-investment task
commits a write-back in which the investment's tx hash is saved while the
campaign aggregates are untouched.  After a successful run on a fresh
confirmed investment of 500 against a campaign with currentFunding 0, the
observable final state has the tx hash set and currentFunding still 0 with
investorCount still 0 - precisely the state the claim says is never
observable. -/
theorem bc_record_partial_writeback_observable :
    (BcTasks.record_investment_on_blockchain
      (some ⟨7, some "0xu", 500, .confirmed, none, none, false⟩)
      ⟨.active, 100000, 0, 75, 30, some 1, none, some "0xc", some "0xd", true, some 1, 0, false⟩
      (.ok ⟨"0xtx", 1, 2, 1, none, []⟩) 5).investment =
      some ⟨7, some "0xu", 500, .confirmed, some "0xtx", some 5, false⟩ ∧
    (BcTasks.record_investment_on_blockchain
      (some ⟨7, some "0xu", 500, .confirmed, none, none, false⟩)
      ⟨.active, 100000, 0, 75, 30, some 1, none, some "0xc", some "0xd", true, some 1, 0, false⟩
      (.ok ⟨"0xtx", 1, 2, 1, none, []⟩) 5).campaign =
      ⟨.active, 100000, 0, 75, 30, some 1, none, some "0xc", some "0xd", true, some 1, 0, false⟩ :=
  ⟨rfl, rfl⟩

/-- Claim C3 as amended: the investments-module record task is all-or-nothing -
a failed attempt leaves the investment and the campaign exactly as they were,
and a successful attempt commits the tx-hash fields and the campaign
aggregates in the same local transaction, so its write-back never exposes a
tx-hash-saved / aggregate-stale state; the blockchain-module record task,
however, never updates the aggregates at all, and the escrow release task
saves the escrow and the campaign in two separate transactions. -/
theorem inv_record_writeback_atomic :
    (∀ inv camp others e now,
      (InvTasks.record_investment_on_blockchain (some inv) camp others
        (.error e) now).investment = some inv) ∧
    (∀ inv camp others e now,
      (InvTasks.record_investment_on_blockchain (some inv) camp others
        (.error e) now).campaign = camp) ∧
    (∀ inv camp others r now a,
      inv.blockchainTxHash = none → camp.smartContractAddress = some a →
      (InvTasks.record_investment_on_blockchain (some inv) camp others
        (.ok r) now).investment =
        some { inv with blockchainTxHash := some r.txHash
                        blockchainRecordedAt := some now } ∧
      ((InvTasks.record_investment_on_blockchain (some inv) camp others
        (.ok r) now).campaign).currentFunding = camp.currentFunding + inv.amount) := by
  refine ⟨?_, ?_, ?_⟩
  · intro inv camp others e now
    cases h : inv.blockchainTxHash with
    | some v => simp [InvTasks.record_investment_on_blockchain, h]
    | none =>
      cases ha : camp.smartContractAddress with
      | some a => simp [InvTasks.record_investment_on_blockchain, h, ha]
      | none => simp [InvTasks.record_investment_on_blockchain, h, ha]
  · intro inv camp others e now
    cases h : inv.blockchainTxHash with
    | some v => simp [InvTasks.record_investment_on_blockchain, h]
    | none =>
      cases ha : camp.smartContractAddress with
      | some a => simp [InvTasks.record_investment_on_blockchain, h, ha]
      | none => simp [InvTasks.record_investment_on_blockchain, h, ha]
  · intro inv camp others r now a h ha
    refine ⟨?_, ?_⟩
    · simp [InvTasks.record_investment_on_blockchain, h, ha]
    · simp [InvTasks.record_investment_on_blockchain, h, ha]

/-- Witness for the amended C3: on a concrete failed attempt the campaign row
is exactly as it was before. -/
theorem inv_record_writeback_atomic_witness :
    (InvTasks.record_investment_on_blockchain
      (some ⟨7, some "0xu", 500, .confirmed, none, none, false⟩)
      ⟨.active, 100000, 0, 75, 30, some 1, none, some "0xc", some "0xd", true, some 1, 0, false⟩
      [] (.error (.blockchainTimeout "0xt")) 5).campaign =
      ⟨.active, 100000, 0, 75, 30, some 1, none, some "0xc", some "0xd", true, some 1, 0, false⟩ :=
  inv_record_writeback_atomic.2.1
    ⟨7, some "0xu", 500, .confirmed, none, none, false⟩
    ⟨.active, 100000, 0, 75, 30, some 1, none, some "0xc", some "0xd", true, some 1, 0, false⟩
    [] (.blockchainTimeout "0xt") 5

/-- Counterexample to claim C9: the campaign-deploy write-back does not set
endDate.  Deploying a concrete approved campaign with duration 30 at time 1000
succeeds, sets status active and startDate 1000, yet leaves endDate none
rather than the claimed current time plus duration. -/
theorem deploy_writeback_leaves_end_date_unset :
    ((CampTasks.deploy_campaign_to_blockchain
      (some ⟨.approved, 100000, 0, 75, 30, none, none, none, none, false, none, 0, false⟩)
      (.ok ⟨"0xaddr", "0xtx"⟩) 1000).campaign.map Campaign.endDate) = some none ∧
    ((CampTasks.deploy_campaign_to_blockchain
      (some ⟨.approved, 100000, 0, 75, 30, none, none, none, none, false, none, 0, false⟩)
      (.ok ⟨"0xaddr", "0xtx"⟩) 1000).campaign.map Campaign.status) = some .active := by
  exact ⟨rfl, rfl⟩

/-- Claim C9 as amended: the deploy task is enqueued by the post-save trigger
only when can_deploy_to_blockchain holds, which requires status approved; the
successful write-back sets status active, startDate to the current time, the
contract address, the tx hash and the deployed flag, and leaves endDate
unchanged (it is never set by the write-back). -/
theorem deploy_writeback_sets_active_and_start_date
    (c : Campaign) (r : CampTasks.DeployResult) (now : Nat)
    (h : c.deployedOnBlockchain = false) :
    CampTasks.deploy_campaign_to_blockchain (some c) (.ok r) now =
      ⟨some { c with smartContractAddress := some r.campaignAddress
                     deploymentTxHash := some r.txHash
                     deployedOnBlockchain := true
                     blockchainDeployedAt := some now
                     status := .active
                     startDate := some now },
       1, .ok (.deployed r.campaignAddress r.txHash)⟩ ∧
    ({ c with smartContractAddress := some r.campaignAddress
              deploymentTxHash := some r.txHash
              deployedOnBlockchain := true
              blockchainDeployedAt := some now
              status := .active
              startDate := some now } : Campaign).endDate = c.endDate ∧
    (∀ reg, sync_campaign_to_blockchain c reg = true → c.status = .approved) := by
  refine ⟨?_, rfl, ?_⟩
  · simp [CampTasks.deploy_campaign_to_blockchain, h]
  · intro reg hs
    simp only [sync_campaign_to_blockchain, Campaign.can_deploy_to_blockchain,
      Bool.and_eq_true, beq_iff_eq] at hs
    exact hs.1.1

/-- Witness for the amended C9 at a concrete approved, undeployed campaign. -/
theorem deploy_writeback_sets_active_and_start_date_witness :
    CampTasks.deploy_campaign_to_blockchain
      (some ⟨.approved, 100000, 0, 75, 30, none, some 777, none, none, false, none, 0, false⟩)
      (.ok ⟨"0xaddr", "0xtx"⟩) 1000 =
      ⟨some ⟨.active, 100000, 0, 75, 30, some 1000, some 777, some "0xaddr", some "0xtx",
        true, some 1000, 0, false⟩, 1, .ok (.deployed "0xaddr" "0xtx")⟩ :=
  (deploy_writeback_sets_active_and_start_date
    ⟨.approved, 100000, 0, 75, 30, none, some 777, none, none, false, none, 0, false⟩
    ⟨"0xaddr", "0xtx"⟩ 1000 rfl).1

/-! ## Claim C4: aggregate commutativity of investment recording -/

/-- Drive the investments-module record task over a list of not-yet-recorded
investment rows in the given order, each run using a successful chain result:
the updated row joins the list of the campaign's stored rows that the next
run's previous-confirmed-count query consults. -/
def process_investments : List Investment → List Investment → Campaign → Nat → String →
    Campaign × List Investment
  | [], recorded, camp, _, _ => (camp, recorded)
  | inv :: rest, recorded, camp, now, txh =>
    let run := InvTasks.record_investment_on_blockchain (some inv) camp recorded
      (.ok ⟨txh, 0, 0, 1, none, []⟩) now
    match run.investment with
    | some inv' => process_investments rest (inv' :: recorded) run.campaign now txh
    | none => process_investments rest recorded run.campaign now txh

/-- Users that the previous-confirmed-count query can see in a list of stored
rows: owners of confirmed investments whose tx hash is set. -/
def recordedUsers (R : List Investment) : Finset Nat :=
  ((R.filter (fun j => j.status == InvStatus.confirmed && j.blockchainTxHash.isSome)).map
    (fun j => j.userId)).toFinset

lemma prev_count_zero_iff (u : Nat) (R : List Investment) :
    ((R.filter (fun j => j.userId == u && j.status == InvStatus.confirmed &&
        j.blockchainTxHash.isSome)).length = 0) ↔ u ∉ recordedUsers R := by
  rw [List.length_eq_zero, List.filter_eq_nil_iff]
  simp only [recordedUsers, List.mem_toFinset, List.mem_map, List.mem_filter,
    Bool.and_eq_true, beq_iff_eq, not_exists, not_and]
  aesop

lemma recordedUsers_cons (j : Investment) (R : List Investment)
    (h1 : j.status = InvStatus.confirmed) (h2 : j.blockchainTxHash.isSome = true) :
    recordedUsers (j :: R) = insert j.userId (recordedUsers R) := by
  simp [recordedUsers, List.filter_cons, h1, h2]

lemma insert_sdiff_insert_card (u : Nat) (X S : Finset Nat) (h : u ∉ S) :
    (insert u X \ S).card = (X \ insert u S).card + 1 := by
  have he : insert u X \ S = insert u (X \ insert u S) := by
    ext v
    by_cases hv : v = u
    · subst hv; simp [h]
    · simp [hv, Finset.mem_sdiff, Finset.mem_insert]
  rw [he, Finset.card_insert_of_not_mem]
  simp [Finset.mem_sdiff]

lemma process_investments_cons (inv : Investment) (rest R : List Investment)
    (camp : Campaign) (now : Nat) (txh addr : String)
    (hnone : inv.blockchainTxHash = none)
    (haddr : camp.smartContractAddress = some addr) :
    process_investments (inv :: rest) R camp now txh =
      process_investments rest
        ({ inv with blockchainTxHash := some txh
                    blockchainRecordedAt := some now } :: R)
        { camp with
            currentFunding := camp.currentFunding + inv.amount
            investorCount := camp.investorCount +
              (if ((R.filter (fun j => j.userId == inv.userId &&
                    j.status == InvStatus.confirmed &&
                    j.blockchainTxHash.isSome)).length = 0) then 1 else 0) }
        now txh := by
  simp [process_investments, InvTasks.record_investment_on_blockchain, hnone, haddr]

lemma process_investments_spec (l : List Investment) :
    ∀ (R : List Investment) (camp : Campaign) (now : Nat) (txh : String),
    (∀ inv ∈ l, inv.status = InvStatus.confirmed ∧ inv.blockchainTxHash = none) →
    camp.smartContractAddress.isSome = true →
    ((process_investments l R camp now txh).1.currentFunding =
        camp.currentFunding + (l.map Investment.amount).sum ∧
     (process_investments l R camp now txh).1.investorCount =
        camp.investorCount +
          (((l.map Investment.userId).toFinset) \ recordedUsers R).card ∧
     (process_investments l R camp now txh).1.smartContractAddress =
        camp.smartContractAddress) := by
  induction l with
  | nil =>
    intro R camp now txh _ _
    refine ⟨by simp [process_investments], by simp [process_investments], rfl⟩
  | cons inv rest ih =>
    intro R camp now txh hl hd
    obtain ⟨hconf, hnone⟩ := hl inv (List.mem_cons_self inv rest)
    obtain ⟨addr, haddr⟩ := Option.isSome_iff_exists.mp hd
    rw [process_investments_cons inv rest R camp now txh addr hnone haddr]
    set inv' : Investment :=
      { inv with blockchainTxHash := some txh, blockchainRecordedAt := some now } with hinv'
    set camp' : Campaign :=
      { camp with
          currentFunding := camp.currentFunding + inv.amount
          investorCount := camp.investorCount +
            (if ((R.filter (fun j => j.userId == inv.userId &&
                  j.status == InvStatus.confirmed &&
                  j.blockchainTxHash.isSome)).length = 0) then 1 else 0) } with hcamp'
    have hrest : ∀ j ∈ rest, j.status = InvStatus.confirmed ∧ j.blockchainTxHash = none :=
      fun j hj => hl j (List.mem_cons_of_mem inv hj)
    have hd' : camp'.smartContractAddress.isSome = true := by
      rw [hcamp']; exact hd
    obtain ⟨hf, hc, ha⟩ := ih (inv' :: R) camp' now txh hrest hd'
    have husers : recordedUsers (inv' :: R) = insert inv.userId (recordedUsers R) := by
      have : inv'.userId = inv.userId := rfl
      rw [recordedUsers_cons inv' R (by rw [hinv']; exact hconf) (by rw [hinv']; rfl), this]
    refine ⟨?_, ?_, ?_⟩
    · rw [hf, hcamp']
      simp only [List.map_cons, List.sum_cons]
      ring
    · rw [hc, husers, hcamp']
      simp only [List.map_cons, List.toFinset_cons]
      by_cases hmem : inv.userId ∈ recordedUsers R
      · have hcount : ¬((R.filter (fun j => j.userId == inv.userId &&
            j.status == InvStatus.confirmed &&
            j.blockchainTxHash.isSome)).length = 0) :=
          fun h0 => (prev_count_zero_iff inv.userId R).mp h0 hmem
        rw [if_neg hcount, Finset.insert_sdiff_of_mem _ hmem,
          Finset.insert_eq_self.mpr hmem]
        omega
      · have hcount : ((R.filter (fun j => j.userId == inv.userId &&
            j.status == InvStatus.confirmed &&
            j.blockchainTxHash.isSome)).length = 0) :=
          (prev_count_zero_iff inv.userId R).mpr hmem
        rw [if_pos hcount,
          insert_sdiff_insert_card inv.userId (rest.map Investment.userId).toFinset
            (recordedUsers R) hmem]
        omega
    · rw [ha, hcamp']

/-- Claim C4: starting from a campaign with zero funding and zero investor
count, recording a set of confirmed, not-yet-recorded investments in any order
yields currentFunding equal to the sum of the amounts and investorCount equal
to the number of distinct investors, independent of the processing order (and
even of the recording times and transaction hashes used). -/
theorem aggregate_commutativity
    (l l' : List Investment) (camp : Campaign) (now now' : Nat) (txh txh' : String)
    (hperm : l.Perm l')
    (hl : ∀ inv ∈ l, inv.status = InvStatus.confirmed ∧ inv.blockchainTxHash = none)
    (hfund : camp.currentFunding = 0) (hcount : camp.investorCount = 0)
    (hd : camp.smartContractAddress.isSome = true) :
    (process_investments l [] camp now txh).1.currentFunding =
      (l.map Investment.amount).sum ∧
    (process_investments l' [] camp now' txh').1.currentFunding =
      (l.map Investment.amount).sum ∧
    (process_investments l [] camp now txh).1.investorCount =
      (l.map Investment.userId).toFinset.card ∧
    (process_investments l' [] camp now' txh').1.investorCount =
      (l.map Investment.userId).toFinset.card := by
  have hl' : ∀ inv ∈ l', inv.status = InvStatus.confirmed ∧ inv.blockchainTxHash = none :=
    fun inv hm => hl inv (hperm.mem_iff.mpr hm)
  obtain ⟨hf1, hc1, _⟩ := process_investments_spec l [] camp now txh hl hd
  obtain ⟨hf2, hc2, _⟩ := process_investments_spec l' [] camp now' txh' hl' hd
  have hempty : recordedUsers [] = ∅ := rfl
  have hsum : (l'.map Investment.amount).sum = (l.map Investment.amount).sum :=
    ((hperm.map Investment.amount).sum_eq).symm
  have hfin : (l'.map Investment.userId).toFinset = (l.map Investment.userId).toFinset :=
    (List.toFinset_eq_of_perm _ _ (hperm.map Investment.userId)).symm
  refine ⟨?_, ?_, ?_, ?_⟩
  · rw [hf1, hfund, zero_add]
  · rw [hf2, hfund, zero_add, hsum]
  · rw [hc1, hcount, hempty, Finset.sdiff_empty, zero_add]
  · rw [hc2, hcount, hempty, Finset.sdiff_empty, zero_add, hfin]

/-- Witness for C4: two confirmed investments of 40000 (user 1) and 38000
(user 2) processed in both orders against a fresh deployed campaign. -/
theorem aggregate_commutativity_witness :
    ((Investment.mk 1 (some "0xa") 40000 .confirmed none none false) ::
      (Investment.mk 2 (some "0xb") 38000 .confirmed none none false) :: []).Perm
      ((Investment.mk 2 (some "0xb") 38000 .confirmed none none false) ::
        (Investment.mk 1 (some "0xa") 40000 .confirmed none none false) :: []) ∧
    (process_investments
      ((Investment.mk 1 (some "0xa") 40000 .confirmed none none false) ::
        (Investment.mk 2 (some "0xb") 38000 .confirmed none none false) :: []) []
      ⟨.active, 100000, 0, 75, 30, some 1, none, some "0xc", some "0xd", true, some 1, 0, false⟩
      3 "0xt").1.currentFunding =
      ((((Investment.mk 1 (some "0xa") 40000 .confirmed none none false) ::
        (Investment.mk 2 (some "0xb") 38000 .confirmed none none false) :: []).map
          Investment.amount).sum) ∧
    (process_investments
      ((Investment.mk 2 (some "0xb") 38000 .confirmed none none false) ::
        (Investment.mk 1 (some "0xa") 40000 .confirmed none none false) :: []) []
      ⟨.active, 100000, 0, 75, 30, some 1, none, some "0xc", some "0xd", true, some 1, 0, false⟩
      4 "0xu").1.investorCount =
      ((((Investment.mk 1 (some "0xa") 40000 .confirmed none none false) ::
        (Investment.mk 2 (some "0xb") 38000 .confirmed none none false) :: []).map
          Investment.userId).toFinset.card) := by
  have hperm : ((Investment.mk 1 (some "0xa") 40000 .confirmed none none false) ::
      (Investment.mk 2 (some "0xb") 38000 .confirmed none none false) :: []).Perm
      ((Investment.mk 2 (some "0xb") 38000 .confirmed none none false) ::
        (Investment.mk 1 (some "0xa") 40000 .confirmed none none false) :: []) :=
    List.Perm.swap _ _ []
  have h := aggregate_commutativity
    ((Investment.mk 1 (some "0xa") 40000 .confirmed none none false) ::
      (Investment.mk 2 (some "0xb") 38000 .confirmed none none false) :: [])
    ((Investment.mk 2 (some "0xb") 38000 .confirmed none none false) ::
      (Investment.mk 1 (some "0xa") 40000 .confirmed none none false) :: [])
    ⟨.active, 100000, 0, 75, 30, some 1, none, some "0xc", some "0xd", true, some 1, 0, false⟩
    3 4 "0xt" "0xu" hperm
    (by intro inv hm
        rcases List.mem_cons.mp hm with rfl | hm
        · exact ⟨rfl, rfl⟩
        rcases List.mem_cons.mp hm with rfl | hm
        · exact ⟨rfl, rfl⟩
        cases hm)
    rfl rfl rfl
  exact ⟨hperm, h.1, h.2.2.2⟩
